import Mathlib

/-!
A shallow embedding of `src/UniversalTelegramBot.cpp`
(Universal-Arduino-Telegram-Bot).

Conventions used throughout:

* Arduino `String` values are modelled as Lean `String` / `List Char`;
  C `long` / `int` as `Int`, C array indices and sizes as `Nat`.
* The JSON collaborator (ArduinoJson) is an external library; JSON
  documents are modelled by the inductive `JSON` below, and its observable
  accessor behaviour (`operator[]`, `as<String>`, `as<long>`, `containsKey`)
  is reproduced: member access on a missing key yields the null variant,
  `as<String>()` of null yields the string "null", `as<long>()` of null
  yields 0.  Serialisation of containers through `as<String>()` is elided
  (returned as ""); no claim exercises it.  Where a function feeds a raw
  body to `deserializeJson`, the parser itself is taken as an abstract
  parameter `parse : String → Option JSON` (parse failure = `none`),
  matching the spec's treatment of the JSON library as a collaborator
  specified only via its interface.
* The byte-stream transport is modelled by its observable content: the
  list of bytes the stream yields (`List Char`), a boolean connect
  outcome for the single connect attempt a call may make, and the
  connection flag inside `BotState`.  Wall-clock timing (`millis`,
  `longPoll`, `waitForResponse`) only bounds how long `readHTTPAnswer`
  waits; the value it returns for a given delivered byte sequence is
  timing-independent and is what we model.
* `getFile` performs a nested network exchange; inside `processResult` it
  is abstracted as an oracle `String → Option (String × Int)` mapping a
  file id to the resolved (file_path, file_size) on success.
* `float` fields (latitude/longitude) are modelled as `Int`; every claim
  about them only concerns their zero defaults.
-/

/-- Characters the C library `atol` skips as leading whitespace. -/
def isSpaceCh (c : Char) : Bool :=
  c = ' ' || c = '\t' || c = '\n' || c = '\r' || c = '\x0b' || c = '\x0c'

/-- ASCII digit test. -/
def isDigitCh (c : Char) : Bool :=
  '0' ≤ c && c ≤ '9'

/-- Value of a digit run (most significant first), as `atol` accumulates it. -/
def digitsVal (ds : List Char) : Nat :=
  ds.foldl (fun acc c => acc * 10 + (c.toNat - '0'.toNat)) 0

/-- C `atol` / Arduino `String::toInt`: skip leading whitespace, optional
sign, then a maximal digit run; no digits gives 0. -/
def atol (s : List Char) : Int :=
  let s1 := s.dropWhile isSpaceCh
  match s1 with
  | '-' :: rest => -(digitsVal (rest.takeWhile isDigitCh) : Int)
  | '+' :: rest => (digitsVal (rest.takeWhile isDigitCh) : Int)
  | _ => (digitsVal (s1.takeWhile isDigitCh) : Int)

/-- Arduino `String::indexOf(substring)`: index of the first occurrence of
`sub` in `s`, if any. -/
def firstIdx (sub : List Char) : List Char → Option Nat
  | [] => if sub = [] then some 0 else none
  | c :: rest =>
    if (c :: rest).take sub.length = sub then some 0
    else (firstIdx sub rest).map (· + 1)

/-- Arduino `String::indexOf(ch, fromIndex)`: absolute index of the first
occurrence of `c` at or after position `start`. -/
def charIdxFrom (c : Char) (s : List Char) (start : Nat) : Option Nat :=
  ((s.drop start).findIdx? (· = c)).map (· + start)

/-- ArduinoJson document model.  Objects keep members in insertion order;
member lookup returns the first match, as ArduinoJson's `operator[]` does. -/
inductive JSON where
  | null
  | bool (b : Bool)
  | num (n : Int)
  | str (s : String)
  | arr (elems : List JSON)
  | obj (fields : List (String × JSON))

/-- First-match lookup in an object's member list. -/
def lookupField : List (String × JSON) → String → Option JSON
  | [], _ => none
  | (k, v) :: rest, key => if k = key then some v else lookupField rest key

/-- `doc[key]` when the variant is an object, `none` otherwise. -/
def JSON.lookup : JSON → String → Option JSON
  | JSON.obj fields, key => lookupField fields key
  | _, _ => none

/-- ArduinoJson `operator[]`: member access, null variant when missing. -/
def JSON.get (j : JSON) (key : String) : JSON :=
  (j.lookup key).getD JSON.null

/-- ArduinoJson `containsKey`. -/
def JSON.containsKey (j : JSON) (key : String) : Bool :=
  (j.lookup key).isSome

/-- ArduinoJson `as<String>()`: strings verbatim, other scalars serialised
(in particular the null variant serialises to the string "null", which is
what the library's own comment at the `reply_to_message` handling relies
on).  Container serialisation is elided; no claim exercises it. -/
def JSON.asString : JSON → String
  | JSON.null => "null"
  | JSON.bool b => if b then "true" else "false"
  | JSON.num n => toString n
  | JSON.str s => s
  | JSON.arr _ => ""
  | JSON.obj _ => ""

/-- ArduinoJson `as<long>` / `as<int>` (and implicit integer conversion):
numbers verbatim, booleans 0/1, strings parsed as integers, null 0. -/
def JSON.asInt : JSON → Int
  | JSON.num n => n
  | JSON.bool b => if b then 1 else 0
  | JSON.str s => atol s.toList
  | _ => 0

/-- ArduinoJson `doc["ok"] | false`: the boolean value if the variant holds
one, otherwise the supplied default `false`. -/
def JSON.asBool : JSON → Bool
  | JSON.bool b => b
  | _ => false

/-- The element list of `doc["result"]` (`size()` / `operator[i]` on an
array variant; anything else behaves as empty). -/
def jarrOf : JSON → List JSON
  | JSON.arr xs => xs
  | _ => []

/-- One decoded update: the `telegramMessage` record of the library header.
`float` coordinates are modelled as `Int` (only their zero defaults are at
stake in the claims). -/
structure TelegramMessage where
  update_id : Int
  type : String
  message_id : Int
  from_id : String
  from_name : String
  date : String
  chat_id : String
  chat_title : String
  text : String
  longitude : Int
  latitude : Int
  hasDocument : Bool
  file_caption : String
  file_name : String
  file_path : String
  file_size : Int
  contact_phone_number : String
  contact_name : String
  contact_id : String
  reply_to_message_id : Int
  reply_to_text : String
  query_id : String
deriving DecidableEq

/-- The all-empty / all-zero record contents. -/
def emptyMessage : TelegramMessage :=
  ⟨0, "", 0, "", "", "", "", "", "", 0, 0, false, "", "", "", 0, "", "", "", 0, "", ""⟩

instance : Inhabited TelegramMessage := ⟨emptyMessage⟩

/-- The bot object's mutable state: the transport's connection flag, the
update watermark `last_message_received`, `last_sent_message_id`, the
fixed message-record array (modelled as a total function from slot index;
the C array has a fixed capacity and writing past it is undefined
behaviour the model does not reproduce), plus the configuration fields
`maxMessageLength` and the token. -/
structure BotState where
  connected : Bool
  last_message_received : Int
  last_sent_message_id : Int
  messages : Nat → TelegramMessage
  maxMessageLength : Nat
  _token : String

/-- `closeClient`: stop the transport iff currently connected. -/
def closeClient (st : BotState) : BotState :=
  if st.connected then { st with connected := false } else st

/-- `buildCommand`: `bot<token>/<cmd>`. -/
def buildCommand (st : BotState) (cmd : String) : String :=
  "bot" ++ st._token ++ "/" ++ cmd

/-- The fixed API host of the library header. -/
def TELEGRAM_HOST : String := "api.telegram.org"

/-- The loop state of `readHTTPAnswer`: body byte count, the two parser
flags, the completion flag, the extracted content length `toRead`, and the
accumulated header and body text. -/
structure ReadState where
  ch_count : Nat
  finishedHeaders : Bool
  currentLineIsBlank : Bool
  responseReceived : Bool
  toRead : Int
  headers : List Char
  body : List Char

def initRead : ReadState := ⟨0, false, true, false, 0, [], []⟩

/-- The content-length extraction `readHTTPAnswer` performs when the blank
line is reached: lowercase the accumulated headers, find
"content-length", find the next carriage return starting 15 characters
later, and `toInt` the slice between; absent either index the stored
`toRead` is left untouched (which the step function renders as `none`). -/
def contentLengthFromHeaders (headers : List Char) : Option Int :=
  let hl := headers.map Char.toLower
  match firstIdx "content-length".toList hl with
  | none => none
  | some ind1 =>
    match charIdxFrom '\r' hl (ind1 + 15) with
    | none => none
    | some ind2 => some (atol ((hl.drop (ind1 + 15)).take (ind2 - (ind1 + 15))))

/-- One character of the `readHTTPAnswer` loop body, before the trailing
blank-line bookkeeping. -/
def readStepCore (maxMessageLength : Nat) (s : ReadState) (c : Char) : ReadState :=
  if s.finishedHeaders = false then
    if s.currentLineIsBlank = true ∧ c = '\n' then
      match contentLengthFromHeaders s.headers with
      | some n => { s with finishedHeaders := true, toRead := n, headers := [] }
      | none => { s with finishedHeaders := true }
    else { s with headers := s.headers ++ [c] }
  else
    if s.ch_count < maxMessageLength then
      { s with
          body := s.body ++ [c],
          ch_count := s.ch_count + 1,
          responseReceived :=
            if 0 < s.toRead then decide (((s.ch_count + 1 : Nat) : Int) = s.toRead)
            else true }
    else s

/-- One character of the `readHTTPAnswer` loop body: the header/body
handling followed by the blank-line flag update of lines 142-143. -/
def readStep (maxMessageLength : Nat) (s : ReadState) (c : Char) : ReadState :=
  if c = '\n' then { readStepCore maxMessageLength s c with currentLineIsBlank := true }
  else if c = '\r' then readStepCore maxMessageLength s c
  else { readStepCore maxMessageLength s c with currentLineIsBlank := false }

/-- The final loop state of `readHTTPAnswer` once the stream has yielded
the byte sequence `stream`. -/
def readFinal (maxMessageLength : Nat) (stream : List Char) : ReadState :=
  stream.foldl (readStep maxMessageLength) initRead

/-- `readHTTPAnswer`: the (body, responseReceived) pair the function hands
back after consuming `stream`.  The outer `millis` loop only decides how
long the function keeps waiting for further bytes; for a delivered byte
sequence the returned pair is this fold. -/
def readHTTPAnswer (maxMessageLength : Nat) (stream : List Char) : String × Bool :=
  (String.mk (readFinal maxMessageLength stream).body,
   (readFinal maxMessageLength stream).responseReceived)

/-- The loop invariant of `readHTTPAnswer`: the byte count mirrors the
body length and is capped at `maxMessageLength`; before the blank line
nothing has been read and no content length stored; and at all times the
completion flag equals "a positive stored content length was matched
exactly by the bytes appended so far, or no positive content length is
stored and at least one byte has been appended". -/
def readInv (maxMessageLength : Nat) (s : ReadState) : Prop :=
  s.ch_count = s.body.length
  ∧ s.ch_count ≤ maxMessageLength
  ∧ (s.finishedHeaders = false → s.ch_count = 0 ∧ s.toRead = 0)
  ∧ s.responseReceived =
      (if 0 < s.toRead then decide ((s.ch_count : Int) = s.toRead)
       else decide (0 < s.ch_count))

/-- The digit-run scanner inside `getUpdateIdFromResponse`: examine one
character; stop at NUL (list end) or carriage return, otherwise advance
past it and copy the following maximal digit run into the buffer starting
at position 0 (leaving any longer previous run's tail in place).  `fuel`
is the list length plus one, enough for the loop that consumes at least
one character per iteration. -/
def writeRun (buf run : List Char) : List Char :=
  (run.take 20 ++ buf.drop (min run.length 20)).take 20

def scanRuns : Nat → List Char → List Char → List Char
  | 0, _, buf => buf
  | _ + 1, [], buf => buf
  | fuel + 1, c :: rest, buf =>
    if c = '\r' then buf
    else scanRuns fuel (rest.dropWhile isDigitCh) (writeRun buf (rest.takeWhile isDigitCh))

/-- `getUpdateIdFromResponse`: truncate the response at its first newline
(`String::remove` of `indexOf("\n")`; a missing newline leaves the string
whole), scan digit runs into a 20-byte buffer (modelled as starting
zeroed), and `atol` the buffer. -/
def getUpdateIdFromResponse (response : String) : Int :=
  let cs := response.toList
  let firstLine :=
    match cs.findIdx? (· = '\n') with
    | some i => cs.take i
    | none => cs
  atol (scanRuns (firstLine.length + 1) firstLine (List.replicate 20 '\x00'))

/-- The update id `processResult` reads from a result element
(`result["update_id"]` into a `long`). -/
def updateIdOf (result : JSON) : Int :=
  (result.get "update_id").asInt

/-- The four-way type dispatch of `processResult`, applied to the record
`m` that already holds the freshly reset fields.  `gf` abstracts the
nested `getFile` network exchange of the `document` sub-branch: the
resolved (file_path, file_size) on success, `none` on failure (in which
case the record's `file_path`/`file_size` keep their previous contents,
exactly as the by-reference arguments of `getFile` do). -/
def processBranches (gf : String → Option (String × Int)) (result : JSON)
    (m : TelegramMessage) : TelegramMessage :=
  if result.containsKey "message" then
    let message := result.get "message"
    let m1 := { m with
      type := "message",
      from_id := ((message.get "from").get "id").asString,
      from_name := ((message.get "from").get "first_name").asString,
      date := (message.get "date").asString,
      chat_id := ((message.get "chat").get "id").asString,
      chat_title := ((message.get "chat").get "title").asString,
      hasDocument := false,
      message_id := (message.get "message_id").asInt }
    let m2 :=
      if message.containsKey "text" then
        { m1 with text := (message.get "text").asString }
      else if message.containsKey "location" then
        { m1 with
            longitude := ((message.get "location").get "longitude").asInt,
            latitude := ((message.get "location").get "latitude").asInt }
      else if message.containsKey "document" then
        let m1a := { m1 with
          file_caption := (message.get "caption").asString,
          file_name := ((message.get "document").get "file_name").asString }
        match gf (((message.get "document").get "file_id").asString) with
        | some pr => { m1a with file_path := pr.1, file_size := pr.2, hasDocument := true }
        | none => { m1a with hasDocument := false }
      else if message.containsKey "contact" then
        { m1 with
            contact_phone_number := ((message.get "contact").get "phone_number").asString,
            contact_name := ((message.get "contact").get "first_name").asString,
            contact_id := ((message.get "contact").get "user_id").asString }
      else m1
    if message.containsKey "reply_to_message" then
      { m2 with
          reply_to_message_id := ((message.get "reply_to_message").get "message_id").asInt,
          reply_to_text := ((message.get "reply_to_message").get "text").asString }
    else m2
  else if result.containsKey "channel_post" then
    let message := result.get "channel_post"
    { m with
        type := "channel_post",
        text := (message.get "text").asString,
        date := (message.get "date").asString,
        chat_id := ((message.get "chat").get "id").asString,
        chat_title := ((message.get "chat").get "title").asString,
        message_id := (message.get "message_id").asInt }
  else if result.containsKey "callback_query" then
    let message := result.get "callback_query"
    { m with
        type := "callback_query",
        from_id := ((message.get "from").get "id").asString,
        from_name := ((message.get "from").get "first_name").asString,
        text := (message.get "data").asString,
        date := (message.get "date").asString,
        chat_id := (((message.get "message").get "chat").get "id").asString,
        reply_to_text := ((message.get "message").get "text").asString,
        chat_title := "",
        query_id := (message.get "id").asString,
        message_id := ((message.get "message").get "message_id").asInt }
  else if result.containsKey "edited_message" then
    let message := result.get "edited_message"
    let m1 := { m with
      type := "edited_message",
      from_id := ((message.get "from").get "id").asString,
      from_name := ((message.get "from").get "first_name").asString,
      date := (message.get "date").asString,
      chat_id := ((message.get "chat").get "id").asString,
      chat_title := ((message.get "chat").get "title").asString,
      message_id := (message.get "message_id").asInt }
    if message.containsKey "text" then
      { m1 with text := (message.get "text").asString }
    else if message.containsKey "location" then
      { m1 with
          longitude := ((message.get "location").get "longitude").asInt,
          latitude := ((message.get "location").get "latitude").asInt }
    else m1
  else m

/-- `processResult`: if the element's update id differs from the
watermark, advance the watermark to it, reset the twelve fields the
source assigns (`update_id`, `text`, `from_id`, `from_name`, `longitude`,
`latitude`, `reply_to_message_id`, `reply_to_text`, `query_id`, and the
three contact fields), run the type dispatch, and report `true`;
otherwise report `false` and leave everything untouched.  The result
triple is (returned bool, new slot contents, new watermark). -/
def processResult (gf : String → Option (String × Int)) (result : JSON)
    (slot : TelegramMessage) (last_message_received : Int) :
    Bool × TelegramMessage × Int :=
  if last_message_received ≠ updateIdOf result then
    let m := { slot with
      update_id := updateIdOf result, text := "", from_id := "", from_name := "",
      longitude := 0, latitude := 0, reply_to_message_id := 0, reply_to_text := "",
      query_id := "", contact_phone_number := "", contact_name := "", contact_id := "" }
    (true, processBranches gf result m, updateIdOf result)
  else (false, slot, last_message_received)

/-- The state after `processResult` delivered into slot `idx`: the slot
holds the new record and the watermark the new value. -/
def deliverState (st : BotState) (idx : Nat) (r : Bool × TelegramMessage × Int) :
    BotState :=
  { st with
      messages := fun j => if j = idx then r.2.1 else st.messages j,
      last_message_received := r.2.2 }

/-- The result-stepping loop of `getUpdates` (lines 424-427): walk the
decoded result array, incrementing `newMessageIndex` whenever
`processResult` reports a new message, and return it with the updated
state. -/
def pollLoop (gf : String → Option (String × Int)) :
    List JSON → Nat → BotState → Nat × BotState
  | [], idx, st => (idx, st)
  | e :: rest, idx, st =>
    let r := processResult gf e (st.messages idx) st.last_message_received
    if r.1 then pollLoop gf rest (idx + 1) (deliverState st idx r)
    else pollLoop gf rest idx st

/-- One `getUpdates` call's processing of an already-decoded result
array. -/
def pollBatch (gf : String → Option (String × Int)) (elems : List JSON)
    (st : BotState) : Nat × BotState :=
  pollLoop gf elems 0 st

/-- A sequence of `getUpdates` calls whose responses decoded to the given
result arrays: total new-message count and final state. -/
def runPolls (gf : String → Option (String × Int)) :
    List (List JSON) → BotState → Nat × BotState
  | [], st => (0, st)
  | b :: bs, st =>
    let r1 := pollBatch gf b st
    let r2 := runPolls gf bs r1.2
    (r1.1 + r2.1, r2.2)

/-- As `pollLoop`, additionally recording the update id of every element
for which `processResult` returned `true` — i.e. every update delivered
to the caller, in delivery order. -/
def deliveredLoop (gf : String → Option (String × Int)) :
    List JSON → Nat → BotState → List Int × BotState
  | [], _, st => ([], st)
  | e :: rest, idx, st =>
    let r := processResult gf e (st.messages idx) st.last_message_received
    if r.1 then
      let r2 := deliveredLoop gf rest (idx + 1) (deliverState st idx r)
      (updateIdOf e :: r2.1, r2.2)
    else deliveredLoop gf rest idx st

/-- Update ids delivered across a whole sequence of `getUpdates` calls, in
order. -/
def runDelivered (gf : String → Option (String × Int)) :
    List (List JSON) → BotState → List Int × BotState
  | [], st => ([], st)
  | b :: bs, st =>
    let r1 := deliveredLoop gf b 0 st
    let r2 := runDelivered gf bs r1.2
    (r1.1 ++ r2.1, r2.2)

/-- The update ids of one response's result array. -/
def batchIds (elems : List JSON) : List Int :=
  elems.map updateIdOf

/-- The update ids of a whole sequence of responses, in order. -/
def joinedIds (batches : List (List JSON)) : List Int :=
  (batches.map batchIds).flatten

/-- `getUpdates` (lines 378-472).  `net` maps the offset the call embeds
into the request command to the raw body `sendGetToTelegram` hands back
(the transport round-trip is abstracted into this function; its effect on
the connection flag is orthogonal to every claim stated below), `parse`
is the JSON collaborator, `gf` the `getFile` oracle, and `fuel` bounds the
recursion depth of the oversized-message skip (the C function recurses
unboundedly; every theorem below works with explicit fuel). -/
def getUpdates (parse : String → Option JSON) (net : Int → String)
    (gf : String → Option (String × Int)) :
    Nat → BotState → Int → Nat × BotState
  | 0, st, _ => (0, st)
  | fuel + 1, st, offset =>
    let response := net offset
    let updateId := getUpdateIdFromResponse response
    if response = "" then (0, closeClient st)
    else
      match parse response with
      | some doc =>
        if doc.containsKey "result" then
          if 0 < (jarrOf (doc.get "result")).length then
            pollBatch gf (jarrOf (doc.get "result")) st
          else (0, closeClient st)
        else (0, closeClient st)
      | none =>
        if response.length = st.maxMessageLength then
          getUpdates parse net gf fuel (closeClient st) (updateId + 1)
        else (0, closeClient st)

/-- Connection handling shared by the three send functions: a fresh
connect attempt (outcome `connectOk`) iff not already connected. -/
def connectIfNeeded (connectOk : Bool) (st : BotState) : BotState :=
  if st.connected = false then
    (if connectOk then { st with connected := true } else st)
  else st

/-- `sendGetToTelegram`: returns (body, new state, bytes written to the
transport).  On connect failure nothing is written and the body is empty;
on success the connection is left open. -/
def sendGetToTelegram (connectOk : Bool) (stream : List Char)
    (command : String) (st : BotState) : String × BotState × String :=
  let st1 := connectIfNeeded connectOk st
  if st1.connected then
    let sent := "GET /" ++ command ++ " HTTP/1.1\r\n"
      ++ "Host:" ++ TELEGRAM_HOST ++ "\r\n"
      ++ "Accept: application/json\r\n"
      ++ "Cache-Control: no-cache\r\n" ++ "\r\n"
    ((readHTTPAnswer st1.maxMessageLength stream).1, st1, sent)
  else ("", st1, "")

/-- `sendPostToTelegram`: as the GET variant with a JSON body.
`serialize` abstracts ArduinoJson's `serializeJson` / `measureJson`. -/
def sendPostToTelegram (serialize : JSON → String) (connectOk : Bool)
    (stream : List Char) (command : String) (payload : JSON)
    (st : BotState) : String × BotState × String :=
  let st1 := connectIfNeeded connectOk st
  if st1.connected then
    let out := serialize payload
    let sent := "POST /" ++ command ++ " HTTP/1.1\r\n"
      ++ "Host:" ++ TELEGRAM_HOST ++ "\r\n"
      ++ "Content-Type: application/json\r\n"
      ++ "Content-Length:" ++ toString out.length ++ "\r\n" ++ "\r\n"
      ++ out ++ "\r\n"
    ((readHTTPAnswer st1.maxMessageLength stream).1, st1, sent)
  else ("", st1, "")

/-- `sendMultipartFormDataToTelegram`: builds the fixed-boundary multipart
payload and, in contrast to the other two send functions, ends with
`closeClient()` on every path.  The streamed file payload (either
callback flavour) is abstracted as the byte string `fileData`. -/
def sendMultipartFormDataToTelegram (connectOk : Bool) (stream : List Char)
    (command binaryPropertyName fileName contentType chat_id : String)
    (fileSize : Nat) (fileData : String) (st : BotState) :
    String × BotState × String :=
  let boundary := "------------------------b8f610217e83e29b"
  let st1 := connectIfNeeded connectOk st
  if st1.connected then
    let start_request := "--" ++ boundary
      ++ "\r\ncontent-disposition: form-data; name=\"chat_id\"\r\n\r\n"
      ++ chat_id ++ "\r\n" ++ "--" ++ boundary
      ++ "\r\ncontent-disposition: form-data; name=\"" ++ binaryPropertyName
      ++ "\"; filename=\"" ++ fileName ++ "\"\r\n" ++ "Content-Type: "
      ++ contentType ++ "\r\n" ++ "\r\n"
    let end_request := "\r\n" ++ "--" ++ boundary ++ "--" ++ "\r\n"
    let contentLength := fileSize + start_request.length + end_request.length
    let sent := "POST /" ++ buildCommand st command ++ " HTTP/1.1\r\n"
      ++ "Host: " ++ TELEGRAM_HOST ++ "\r\n"
      ++ "User-Agent: arduino/1.0\r\n"
      ++ "Accept: */*\r\n"
      ++ "Content-Length: " ++ toString contentLength ++ "\r\n"
      ++ "Content-Type: multipart/form-data; boundary=" ++ boundary ++ "\r\n"
      ++ "\r\n" ++ start_request ++ fileData ++ end_request
    ((readHTTPAnswer st1.maxMessageLength stream).1, closeClient st1, sent)
  else ("", closeClient st1, "")

/-- `checkForOkResponse`: parse the response, latch a positive
`result.message_id` into `last_sent_message_id`, and report
`doc["ok"] | false`. -/
def checkForOkResponse (parse : String → Option JSON) (response : String)
    (st : BotState) : Bool × BotState :=
  let doc := (parse response).getD JSON.null
  let last_id := ((doc.get "result").get "message_id").asInt
  let st1 := if 0 < last_id then { st with last_sent_message_id := last_id } else st
  ((doc.get "ok").asBool, st1)

/-- `deleteMessage` (lines 633-661): bail out with `false` before any
payload building or transport use when `message_id` is 0; otherwise POST
the deletion, check the acknowledgement, and close the client. -/
def deleteMessage (parse : String → Option JSON) (serialize : JSON → String)
    (connectOk : Bool) (stream : List Char) (chat_id : String)
    (message_id : Int) (st : BotState) : Bool × BotState × String :=
  if message_id = 0 then (false, st, "")
  else
    let payload := JSON.obj [("chat_id", JSON.str chat_id), ("message_id", JSON.num message_id)]
    let r := sendPostToTelegram serialize connectOk stream
      (buildCommand st "deleteMessage") payload st
    let ck := checkForOkResponse parse r.1 r.2.1
    (ck.1, closeClient ck.2, r.2.2)

/-- Last element of a list, or the supplied default for an empty list. -/
def lastOr (l : List Int) (d : Int) : Int :=
  match l with
  | [] => d
  | a :: t => lastOr t a

/-- The trivial `getFile` oracle used by the concrete instances below. -/
def gf0 : String → Option (String × Int) := fun _ => none

def eU1 : JSON := JSON.obj [("update_id", JSON.num 1)]
def eU2 : JSON := JSON.obj [("update_id", JSON.num 2)]
def eU5 : JSON := JSON.obj [("update_id", JSON.num 5)]
def eU6 : JSON := JSON.obj [("update_id", JSON.num 6)]

/-- A channel_post-shaped element. -/
def eCP : JSON :=
  JSON.obj [("update_id", JSON.num 1),
            ("channel_post", JSON.obj [("text", JSON.str "hello")])]

/-- A message-shaped element carrying a text field. -/
def eMsg : JSON :=
  JSON.obj [("update_id", JSON.num 3),
            ("message", JSON.obj [("text", JSON.str "hi"),
                                  ("chat", JSON.obj [("id", JSON.num 9)])])]

/-- An element carrying both a `message` and a `callback_query` key. -/
def eBoth : JSON :=
  JSON.obj [("update_id", JSON.num 1),
            ("message", JSON.obj [("text", JSON.str "m")]),
            ("callback_query", JSON.obj [("data", JSON.str "d")])]

/-- A callback_query-shaped element with a nested original message. -/
def eCQ : JSON :=
  JSON.obj [("update_id", JSON.num 4),
            ("callback_query", JSON.obj
              [("data", JSON.str "d"),
               ("message", JSON.obj [("chat", JSON.obj [("id", JSON.str "77")]),
                                     ("text", JSON.str "orig"),
                                     ("message_id", JSON.num 12)]),
               ("id", JSON.str "q1")])]

/-- A fresh bot state: disconnected, watermark 0, `maxMessageLength` 10. -/
def st0 : BotState := ⟨false, 0, 0, fun _ => emptyMessage, 10, ""⟩

/-- A state whose watermark is already 5. -/
def st5 : BotState := { st0 with last_message_received := 5 }

/-- A state with an open connection. -/
def stOpen : BotState := { st0 with connected := true }

/-- A record slot still holding a document flag from an earlier poll. -/
def slotDoc : TelegramMessage := { emptyMessage with hasDocument := true }

/-- Concrete parser for the oversized-skip instance: only the body served
at offset 8 parses. -/
def docA : JSON :=
  JSON.obj [("result", JSON.arr [JSON.obj [("update_id", JSON.num 42)]])]

def parseC : String → Option JSON :=
  fun s => if s = "RESP8" then some docA else none

/-- Concrete network for the oversized-skip instance: offset 0 yields an
unparseable body of exactly `maxMessageLength` bytes whose first digit
run scrapes to 7; offset 8 yields the parseable body; anything else
(offset 1 in particular) yields the empty body. -/
def netC : Int → String :=
  fun o => if o = 0 then ":7xxxxxxxx" else if o = 8 then "RESP8" else ""

/-- Trivial serializer for instances that never inspect the wire text. -/
def serE : JSON → String := fun _ => ""

/-- The header section of the content-length-zero instance: exactly what
`readHTTPAnswer` accumulates into `headers` before the finishing newline. -/
def hdrCL0 : List Char := "content-length: 0\r\n\r".toList

/-- A full response stream: the headers above, the newline that ends them,
and a single body byte. -/
def streamCL0 : List Char := hdrCL0 ++ ['\n', 'x']

/-- The bool `processResult` returns depends only on the watermark and the
element's update id: it is the not-equal test of line 477. -/
theorem processResult_fst (gf : String → Option (String × Int)) (e : JSON)
    (slot : TelegramMessage) (w : Int) :
    (processResult gf e slot w).1 = decide (w ≠ updateIdOf e) := by
  unfold processResult
  split <;> simp_all

/-- The watermark `processResult` leaves behind: the element's update id
when it differed, the old watermark otherwise. -/
theorem processResult_snd (gf : String → Option (String × Int)) (e : JSON)
    (slot : TelegramMessage) (w : Int) :
    (processResult gf e slot w).2.2 = if w ≠ updateIdOf e then updateIdOf e else w := by
  unfold processResult
  split <;> simp_all

/-- Projection of the post-delivery state onto the watermark. -/
theorem deliverState_w (st : BotState) (idx : Nat)
    (r : Bool × TelegramMessage × Int) :
    (deliverState st idx r).last_message_received = r.2.2 := rfl

/-- `closeClient` always leaves the transport disconnected. -/
theorem closeClient_connected (st : BotState) : (closeClient st).connected = false := by
  unfold closeClient
  split
  · rfl
  · next h => simpa using h

/-- If the transport was already connected, or the fresh connect attempt
succeeds, the shared connection preamble ends connected. -/
theorem connectIfNeeded_connected (connectOk : Bool) (st : BotState)
    (h : st.connected = true ∨ connectOk = true) :
    (connectIfNeeded connectOk st).connected = true := by
  unfold connectIfNeeded
  rcases h with h | h
  · simp [h]
  · by_cases hc : st.connected = false
    · simp [hc, h]
    · simp at hc
      simp [hc]

/-- C10: for every chat id (and every parser, serializer, transport
outcome and bot state), `deleteMessage` with `message_id = 0` returns
`false` with the bot state unchanged and nothing written to the
transport — the guard at line 634 exits before the payload is built or
`sendPostToTelegram` is reached. -/
theorem deleteMessageZeroNoop (parse : String → Option JSON)
    (serialize : JSON → String) (connectOk : Bool) (stream : List Char)
    (chat_id : String) (st : BotState) :
    deleteMessage parse serialize connectOk stream chat_id 0 st = (false, st, "") := by
  simp [deleteMessage]

/-- C9: `sendMultipartFormDataToTelegram` ends with the transport
disconnected on every path (the `closeClient()` at line 320 sits outside
the connected-branch), while `sendGetToTelegram` and `sendPostToTelegram`
return with the connection still open whenever the call began connected
or its fresh connect attempt succeeded. -/
theorem transportCloseBehavior (serialize : JSON → String) (connectOk : Bool)
    (stream : List Char) (command bpn fn ct cid : String) (fsz : Nat)
    (fdata : String) (payload : JSON) (st : BotState) :
    (sendMultipartFormDataToTelegram connectOk stream command bpn fn ct cid
        fsz fdata st).2.1.connected = false
    ∧ (st.connected = true ∨ connectOk = true →
        (sendGetToTelegram connectOk stream command st).2.1.connected = true)
    ∧ (st.connected = true ∨ connectOk = true →
        (sendPostToTelegram serialize connectOk stream command payload
          st).2.1.connected = true) := by
  refine ⟨?_, ?_, ?_⟩
  · unfold sendMultipartFormDataToTelegram
    by_cases h : (connectIfNeeded connectOk st).connected = true
    · simp [h, closeClient_connected]
    · simp at h
      simp [h, closeClient_connected]
  · intro h
    have h1 := connectIfNeeded_connected connectOk st h
    unfold sendGetToTelegram
    simp [h1]
  · intro h
    have h1 := connectIfNeeded_connected connectOk st h
    unfold sendPostToTelegram
    simp [h1]

/-- Witness for C9 at a concrete input: a fresh state with a succeeding
connect attempt. -/
theorem transportCloseBehaviorWitness :
    (sendMultipartFormDataToTelegram true [] "sendPhoto" "photo" "img.jpg"
        "image/jpeg" "1" 0 "" st0).2.1.connected = false
    ∧ (sendGetToTelegram true [] "botX/getMe" st0).2.1.connected = true
    ∧ (sendPostToTelegram serE true [] "botX/sendMessage" JSON.null
        st0).2.1.connected = true := by
  exact ⟨(transportCloseBehavior serE true [] "sendPhoto" "photo" "img.jpg"
      "image/jpeg" "1" 0 "" JSON.null st0).1,
    (transportCloseBehavior serE true [] "botX/getMe" "p" "f" "c" "1" 0 ""
      JSON.null st0).2.1 (Or.inr rfl),
    (transportCloseBehavior serE true [] "botX/sendMessage" "p" "f" "c" "1" 0 ""
      JSON.null st0).2.2 (Or.inr rfl)⟩

/-- C5 (amended): for a single-element result array — the only shape for
which the single-slot not-equal dedup guarantees the spec's idempotence —
polling a second time with the identical result yields 0 new messages. -/
theorem idempotentSingleElement (gf : String → Option (String × Int))
    (e : JSON) (st : BotState) :
    (pollBatch gf [e] (pollBatch gf [e] st).2).1 = 0 := by
  by_cases h : st.last_message_received = updateIdOf e <;>
    simp [pollBatch, pollLoop, processResult_fst, processResult_snd,
      deliverState_w, h]

/-- C5 counterexample: with two distinct ids [1, 2] the first call
advances the watermark to 2, and the second call with the identical
results redelivers both (returns 2, not 0): the not-equal dedup only
suppresses an element equal to the current watermark. -/
theorem idempotenceCex :
    (pollBatch gf0 [eU1, eU2] (pollBatch gf0 [eU1, eU2] st0).2).1 ≠ 0 := by
  decide

/-- C2 (amended): when the response fails to parse and its length equals
`maxMessageLength`, `getUpdates` closes the client and returns the result
of the recursive call whose offset is one more than the update id
*scraped from the raw response text* by `getUpdateIdFromResponse` — not
the watermark `last_message_received` plus one. -/
theorem oversizedSkipRecursion (parse : String → Option JSON)
    (net : Int → String) (gf : String → Option (String × Int)) (fuel : Nat)
    (st : BotState) (offset : Int)
    (h1 : parse (net offset) = none)
    (h2 : (net offset).length = st.maxMessageLength)
    (h3 : ¬ net offset = "") :
    getUpdates parse net gf (fuel + 1) st offset =
      getUpdates parse net gf fuel (closeClient st)
        (getUpdateIdFromResponse (net offset) + 1) := by
  simp [getUpdates, h1, h2, h3]

/-- Witness for C2's amended theorem at the concrete oversized instance. -/
theorem oversizedSkipRecursionWitness :
    getUpdates parseC netC gf0 2 st0 0 =
      getUpdates parseC netC gf0 1 (closeClient st0)
        (getUpdateIdFromResponse (netC 0) + 1) :=
  oversizedSkipRecursion parseC netC gf0 1 st0 0 rfl (by decide) (by decide)

/-- C2 counterexample: at offset 0 the unparseable maximal-length body
":7xxxxxxxx" scrapes to update id 7, so the skip recurses with offset 8
and delivers the update waiting there (1 new message), whereas the
claimed recursion with watermark+1 = 1 would find the empty body and
return 0. -/
theorem oversizedOffsetCex :
    (getUpdates parseC netC gf0 2 st0 0).1 ≠
      (getUpdates parseC netC gf0 1 (closeClient st0)
        (st0.last_message_received + 1)).1 := by
  decide

/-- `lastOr` ignores the default once the list is nonempty. -/
theorem lastOr_cons (a : Int) (t : List Int) (d : Int) :
    lastOr (a :: t) d = lastOr t a := rfl

/-- `lastOr` distributes over append. -/
theorem lastOr_append (l1 l2 : List Int) (d : Int) :
    lastOr (l1 ++ l2) d = lastOr l2 (lastOr l1 d) := by
  induction l1 generalizing d with
  | nil => rfl
  | cons a t ih => simp [List.cons_append, lastOr_cons, ih]

/-- The last element of a nonempty list is one of its members. -/
theorem lastOr_mem (l : List Int) (d : Int) (h : l ≠ []) : lastOr l d ∈ l := by
  induction l generalizing d with
  | nil => exact absurd rfl h
  | cons a t ih =>
    by_cases ht : t = []
    · subst ht; simp [lastOr]
    · rw [lastOr_cons]
      exact List.mem_cons_of_mem a (ih a ht)

/-- `getLast?` of a cons in terms of `lastOr`. -/
theorem getLastQ (l : List Int) (a : Int) :
    (a :: l).getLast? = some (lastOr l a) := by
  induction l generalizing a with
  | nil => rfl
  | cons b t ih => rw [List.getLast?_cons_cons, ih, lastOr_cons]

/-- In a strictly increasing chain, the head is below every later element. -/
theorem chainLt_all (a : Int) (t : List Int)
    (hc : List.Chain' (fun x y => x < y) (a :: t)) : ∀ b ∈ t, a < b := by
  induction t generalizing a with
  | nil => intro b hb; cases hb
  | cons c t2 ih =>
    intro b hb
    have h1 : a < c := (List.chain'_cons.mp hc).1
    rcases List.mem_cons.mp hb with rfl | hb2
    · exact h1
    · exact lt_trans h1 (ih c (List.chain'_cons.mp hc).2 b hb2)

/-- In a strictly increasing chain every element is at most the last. -/
theorem chainLt_le_lastOr (l : List Int) (d : Int)
    (hc : List.Chain' (fun x y => x < y) l) : ∀ i ∈ l, i ≤ lastOr l d := by
  induction l generalizing d with
  | nil => intro i hi; cases hi
  | cons a t ih =>
    intro i hi
    rw [lastOr_cons]
    rcases List.mem_cons.mp hi with rfl | hit
    · by_cases ht : t = []
      · subst ht; simp [lastOr]
      · exact le_of_lt (chainLt_all i t hc (lastOr t i) (lastOr_mem t i ht))
    · exact ih a hc.tail i hit

/-- A strictly increasing chain has no duplicates. -/
theorem chainLt_nodup (l : List Int)
    (hc : List.Chain' (fun x y => x < y) l) : l.Nodup := by
  induction l with
  | nil => exact List.nodup_nil
  | cons a t ih =>
    refine List.nodup_cons.mpr ⟨?_, ih hc.tail⟩
    intro hmem
    exact lt_irrefl a (chainLt_all a t hc a hmem)

/-- Core dedup property of `deliveredLoop`: seeded with the incoming
watermark, the delivered ids form a chain of pairwise-distinct adjacent
values, and the final watermark is the last delivered id (or the incoming
watermark when nothing was delivered). -/
theorem deliveredLoop_spec (gf : String → Option (String × Int)) :
    ∀ (elems : List JSON) (idx : Nat) (st : BotState),
    List.Chain' (fun a b => a ≠ b)
      (st.last_message_received :: (deliveredLoop gf elems idx st).1)
    ∧ (deliveredLoop gf elems idx st).2.last_message_received =
        lastOr (deliveredLoop gf elems idx st).1 st.last_message_received := by
  intro elems
  induction elems with
  | nil => intro idx st; exact ⟨List.chain'_singleton _, rfl⟩
  | cons e rest ih =>
    intro idx st
    by_cases h : st.last_message_received = updateIdOf e
    · have hf : (processResult gf e (st.messages idx) st.last_message_received).1 = false := by
        rw [processResult_fst]; simp [h]
      simpa [deliveredLoop, hf] using ih idx st
    · have hf : (processResult gf e (st.messages idx) st.last_message_received).1 = true := by
        rw [processResult_fst]; simp [h]
      have hs : (processResult gf e (st.messages idx) st.last_message_received).2.2 =
          updateIdOf e := by
        rw [processResult_snd]; simp [h]
      have hrec := ih (idx + 1)
        (deliverState st idx (processResult gf e (st.messages idx) st.last_message_received))
      rw [deliverState_w, hs] at hrec
      constructor
      · simp only [deliveredLoop, hf, if_true]
        exact List.chain'_cons.mpr ⟨h, hrec.1⟩
      · simp only [deliveredLoop, hf, if_true]
        rw [lastOr_cons]
        exact hrec.2

/-- Dedup property across a whole run of `getUpdates` calls. -/
theorem runDelivered_spec (gf : String → Option (String × Int)) :
    ∀ (batches : List (List JSON)) (st : BotState),
    List.Chain' (fun a b => a ≠ b)
      (st.last_message_received :: (runDelivered gf batches st).1)
    ∧ (runDelivered gf batches st).2.last_message_received =
        lastOr (runDelivered gf batches st).1 st.last_message_received := by
  intro batches
  induction batches with
  | nil => intro st; exact ⟨List.chain'_singleton _, rfl⟩
  | cons b bs ih =>
    intro st
    obtain ⟨h1, h2⟩ := deliveredLoop_spec gf b 0 st
    obtain ⟨h3, h4⟩ := ih (deliveredLoop gf b 0 st).2
    have hsplit : st.last_message_received ::
        ((deliveredLoop gf b 0 st).1 ++ (runDelivered gf bs (deliveredLoop gf b 0 st).2).1) =
        (st.last_message_received :: (deliveredLoop gf b 0 st).1) ++
          (runDelivered gf bs (deliveredLoop gf b 0 st).2).1 := rfl
    constructor
    · show List.Chain' (fun a b => a ≠ b) (st.last_message_received ::
        ((deliveredLoop gf b 0 st).1 ++ (runDelivered gf bs (deliveredLoop gf b 0 st).2).1))
      rw [hsplit]
      refine List.chain'_append.mpr ⟨h1, (List.chain'_cons'.mp h3).2, ?_⟩
      intro x hx y hy
      rw [getLastQ] at hx
      have hx2 : lastOr (deliveredLoop gf b 0 st).1 st.last_message_received = x := by
        simpa using hx
      subst hx2
      rw [← h2]
      exact (List.chain'_cons'.mp h3).1 y hy
    · show (runDelivered gf bs (deliveredLoop gf b 0 st).2).2.last_message_received =
        lastOr ((deliveredLoop gf b 0 st).1 ++
          (runDelivered gf bs (deliveredLoop gf b 0 st).2).1) st.last_message_received
      rw [lastOr_append, ← h2]
      exact h4

/-- C1 (amended): the dedup of `processResult` is a *not-equal* comparison
of the element's update id against the single watermark (line 477), not a
strictly-greater-than one; consequently what holds across every sequence
of `getUpdates` calls is that consecutive delivered update ids (seeded
with the watermark the run started from) always differ — an element equal
to the current watermark is never redelivered, but an id already
delivered earlier can be delivered again once a different id has moved
the watermark past it. -/
theorem dedupAdjacentDistinct (gf : String → Option (String × Int))
    (batches : List (List JSON)) (st : BotState) :
    List.Chain' (fun a b => a ≠ b)
      (st.last_message_received :: (runDelivered gf batches st).1) :=
  (runDelivered_spec gf batches st).1

/-- C1 counterexample: starting from watermark 0, a first call delivering
ids 5 then 6 followed by a second call whose result carries id 5 again
redelivers 5 — the delivered-id list [5, 6, 5] has a duplicate, refuting
the claim that an identifier, once delivered, is never delivered again in
the same process run (and with 5 < 6 also refuting the claimed
strictly-greater-than dedup). -/
theorem dedupRedeliveryCex :
    ¬ (runDelivered gf0 [[eU5, eU6], [eU5]] st0).1.Nodup := by
  decide

/-- Counting property of one poll's loop under strictly increasing ids
whose first id differs from the incoming watermark: every element is
delivered (the counter advances by the array length) and the watermark
ends at the last id. -/
theorem pollLoop_spec (gf : String → Option (String × Int)) :
    ∀ (elems : List JSON) (idx : Nat) (st : BotState),
    List.Chain' (fun a b => a < b) (batchIds elems) →
    (batchIds elems).head? ≠ some st.last_message_received →
    (pollLoop gf elems idx st).1 = idx + elems.length
    ∧ (pollLoop gf elems idx st).2.last_message_received =
        lastOr (batchIds elems) st.last_message_received := by
  intro elems
  induction elems with
  | nil => intro idx st _ _; exact ⟨rfl, rfl⟩
  | cons e rest ih =>
    intro idx st hc hh
    have hids : batchIds (e :: rest) = updateIdOf e :: batchIds rest := rfl
    have hne : st.last_message_received ≠ updateIdOf e := by
      intro heq
      exact hh (by rw [hids, List.head?_cons, heq])
    have hf : (processResult gf e (st.messages idx) st.last_message_received).1 = true := by
      rw [processResult_fst]; simp [hne]
    have hs : (processResult gf e (st.messages idx) st.last_message_received).2.2 =
        updateIdOf e := by
      rw [processResult_snd]; simp [hne]
    have hc2 : List.Chain' (fun a b => a < b) (batchIds rest) := by
      rw [hids] at hc; exact hc.tail
    have hh2 : (batchIds rest).head? ≠ some (updateIdOf e) := by
      cases hr : (batchIds rest).head? with
      | none => simp
      | some v =>
        have hlt : updateIdOf e < v := by
          rw [hids] at hc
          exact (List.chain'_cons'.mp hc).1 v (by rw [hr]; rfl)
        intro hvv
        have : v = updateIdOf e := by simpa using hvv
        subst this
        exact lt_irrefl _ hlt
    have hrec := ih (idx + 1)
      (deliverState st idx (processResult gf e (st.messages idx) st.last_message_received))
      hc2 (by rw [deliverState_w, hs]; exact hh2)
    rw [deliverState_w, hs] at hrec
    constructor
    · simp only [pollLoop, hf, if_true]
      rw [hrec.1, List.length_cons]
      omega
    · simp only [pollLoop, hf, if_true]
      rw [hids, lastOr_cons]
      exact hrec.2

/-- `joinedIds` splits a leading batch off as an append. -/
theorem joinedIds_cons (b : List JSON) (bs : List (List JSON)) :
    joinedIds (b :: bs) = batchIds b ++ joinedIds bs := rfl

/-- Counting property across a run of polls with strictly increasing ids
overall whose first id differs from the initial watermark. -/
theorem runPolls_spec (gf : String → Option (String × Int)) :
    ∀ (batches : List (List JSON)) (st : BotState),
    List.Chain' (fun a b => a < b) (joinedIds batches) →
    (joinedIds batches).head? ≠ some st.last_message_received →
    (runPolls gf batches st).1 = (joinedIds batches).length
    ∧ (runPolls gf batches st).2.last_message_received =
        lastOr (joinedIds batches) st.last_message_received := by
  intro batches
  induction batches with
  | nil => intro st _ _; exact ⟨rfl, rfl⟩
  | cons b bs ih =>
    intro st hc hh
    rw [joinedIds_cons] at hc hh
    obtain ⟨hc1, hc2, hcross⟩ := List.chain'_append.mp hc
    by_cases hb : batchIds b = []
    · have hbnil : b = [] := by
        have := congrArg List.length hb
        simpa [batchIds] using this
      subst hbnil
      have hrec := ih st hc2 (by simpa [hb] using hh)
      simp only [runPolls, pollBatch, pollLoop, joinedIds_cons, hb,
        List.nil_append]
      exact ⟨by rw [hrec.1]; omega, hrec.2⟩
    · have hh1 : (batchIds b).head? ≠ some st.last_message_received := by
        cases hbl : batchIds b with
        | nil => exact absurd hbl hb
        | cons a t =>
          rw [hbl, List.cons_append, List.head?_cons] at hh
          rw [List.head?_cons]
          exact hh
      obtain ⟨hcount1, hw1⟩ := pollLoop_spec gf b 0 st hc1 hh1
      have hh2 : (joinedIds bs).head? ≠
          some (pollLoop gf b 0 st).2.last_message_received := by
        cases hr : (joinedIds bs).head? with
        | none => simp
        | some v =>
          obtain ⟨a, t, hbl⟩ : ∃ a t, batchIds b = a :: t := by
            cases hbl : batchIds b with
            | nil => exact absurd hbl hb
            | cons a t => exact ⟨a, t, rfl⟩
          have hlast : (batchIds b).getLast? = some (lastOr (batchIds b) st.last_message_received) := by
            rw [hbl, getLastQ, lastOr_cons]
          have hlt : lastOr (batchIds b) st.last_message_received < v :=
            hcross _ (by rw [hlast]; rfl) v (by rw [hr]; rfl)
          rw [hw1]
          intro hvv
          have : v = lastOr (batchIds b) st.last_message_received := by simpa using hvv
          subst this
          exact lt_irrefl _ hlt
      have hrec := ih (pollLoop gf b 0 st).2 hc2 hh2
      constructor
      · show (pollLoop gf b 0 st).1 + (runPolls gf bs (pollLoop gf b 0 st).2).1 =
          (batchIds b ++ joinedIds bs).length
        rw [hcount1, hrec.1, List.length_append]
        simp [batchIds]
      · show (runPolls gf bs (pollLoop gf b 0 st).2).2.last_message_received =
          lastOr (batchIds b ++ joinedIds bs) st.last_message_received
        rw [lastOr_append, ← hw1]
        exact hrec.2

/-- C4 (amended): for a run of `getUpdates` calls whose result arrays
carry strictly increasing update ids overall *and whose first id differs
from the watermark at the start of the run*, the final watermark is the
maximum id seen and the total new-message count equals the number of
(necessarily distinct) ids seen.  The extra hypothesis is forced: an
opening id equal to the incoming watermark is skipped by the not-equal
dedup and never counted. -/
theorem pollStrictIncreasing (gf : String → Option (String × Int))
    (batches : List (List JSON)) (st : BotState)
    (hchain : List.Chain' (fun a b => a < b) (joinedIds batches))
    (hne : joinedIds batches ≠ [])
    (hhead : (joinedIds batches).head? ≠ some st.last_message_received) :
    (runPolls gf batches st).1 = (joinedIds batches).length
    ∧ (joinedIds batches).Nodup
    ∧ (runPolls gf batches st).2.last_message_received ∈ joinedIds batches
    ∧ ∀ i ∈ joinedIds batches,
        i ≤ (runPolls gf batches st).2.last_message_received := by
  obtain ⟨h1, h2⟩ := runPolls_spec gf batches st hchain hhead
  refine ⟨h1, chainLt_nodup _ hchain, ?_, ?_⟩
  · rw [h2]
    exact lastOr_mem _ _ hne
  · intro i hi
    rw [h2]
    exact chainLt_le_lastOr _ _ hchain i hi

/-- Witness for C4's amended theorem: two polls delivering ids 1 then 2
from a fresh watermark 0. -/
theorem pollStrictIncreasingWitness :
    (runPolls gf0 [[eU1], [eU2]] st0).1 = (joinedIds [[eU1], [eU2]]).length
    ∧ (joinedIds [[eU1], [eU2]]).Nodup
    ∧ (runPolls gf0 [[eU1], [eU2]] st0).2.last_message_received ∈
        joinedIds [[eU1], [eU2]]
    ∧ ∀ i ∈ joinedIds [[eU1], [eU2]],
        i ≤ (runPolls gf0 [[eU1], [eU2]] st0).2.last_message_received :=
  pollStrictIncreasing gf0 [[eU1], [eU2]] st0
    (by
      have hj : joinedIds [[eU1], [eU2]] = [1, 2] := by decide
      rw [hj]
      exact List.chain'_cons.mpr ⟨by norm_num, List.chain'_singleton _⟩)
    (by decide) (by decide)

/-- C4 counterexample: from watermark 5, a poll whose results carry the
strictly increasing ids [5, 6] delivers only one message (5 equals the
watermark and is skipped), so the total count 1 differs from the number
of distinct ids seen, 2.  (The watermark half of the claim does hold
here; the count half fails.) -/
theorem pollCountCex :
    (runPolls gf0 [[eU5, eU6]] st5).1 ≠ (joinedIds [[eU5, eU6]]).dedup.length := by
  decide

/-- The header/body handling preserves the reader invariant. -/
theorem readStepCore_inv (maxMessageLength : Nat) (s : ReadState) (c : Char)
    (h : readInv maxMessageLength s) :
    readInv maxMessageLength (readStepCore maxMessageLength s c) := by
  obtain ⟨h1, h2, h3, h4⟩ := h
  unfold readStepCore readInv
  by_cases hf : s.finishedHeaders = false
  · obtain ⟨hc0, ht0⟩ := h3 hf
    rw [if_pos hf]
    by_cases hb : (s.currentLineIsBlank = true ∧ c = '\n')
    · rw [if_pos hb]
      cases hcl : contentLengthFromHeaders s.headers with
      | some n =>
        refine ⟨h1, h2, by simp, ?_⟩
        rw [h4, ht0, hc0]
        by_cases hn : 0 < n
        · have : ¬ ((0 : Int) = n) := by omega
          simp [hn, this]
        · simp [hn]
      | none =>
        refine ⟨h1, h2, by simp, ?_⟩
        rw [h4]
    · rw [if_neg hb]
      exact ⟨h1, h2, fun _ => ⟨hc0, ht0⟩, h4⟩
  · rw [if_neg hf]
    by_cases hlt : s.ch_count < maxMessageLength
    · rw [if_pos hlt]
      refine ⟨?_, ?_, fun hfin => absurd hfin hf, ?_⟩
      · show s.ch_count + 1 = (s.body ++ [c]).length
        simp [h1]
      · show s.ch_count + 1 ≤ maxMessageLength
        omega
      · by_cases ht : 0 < s.toRead
        · simp [ht]
        · simp [ht]
    · rw [if_neg hlt]
      exact ⟨h1, h2, h3, h4⟩

/-- The blank-line bookkeeping leaves the invariant untouched, so the full
step preserves it. -/
theorem readStep_inv (maxMessageLength : Nat) (s : ReadState) (c : Char)
    (h : readInv maxMessageLength s) :
    readInv maxMessageLength (readStep maxMessageLength s c) := by
  unfold readStep
  split
  · obtain ⟨h1, h2, h3, h4⟩ := readStepCore_inv maxMessageLength s _ h
    exact ⟨h1, h2, h3, h4⟩
  · split
    · obtain ⟨h1, h2, h3, h4⟩ := readStepCore_inv maxMessageLength s _ h
      exact ⟨h1, h2, h3, h4⟩
    · obtain ⟨h1, h2, h3, h4⟩ := readStepCore_inv maxMessageLength s _ h
      exact ⟨h1, h2, h3, h4⟩

/-- The invariant holds of the final reader state for every byte stream. -/
theorem readFinal_inv (maxMessageLength : Nat) (stream : List Char) :
    readInv maxMessageLength (readFinal maxMessageLength stream) := by
  have hinit : readInv maxMessageLength initRead := by
    refine ⟨rfl, Nat.zero_le _, fun _ => ⟨rfl, rfl⟩, by simp [initRead]⟩
  suffices hgen : ∀ (l : List Char) (s : ReadState), readInv maxMessageLength s →
      readInv maxMessageLength (l.foldl (readStep maxMessageLength) s) by
    exact hgen stream initRead hinit
  intro l
  induction l with
  | nil => intro s hs; exact hs
  | cons c rest ih =>
    intro s hs
    exact ih _ (readStep_inv maxMessageLength s c hs)

/-- C3 (amended): for every byte stream, the body is accumulated only up
to `maxMessageLength` bytes, and the completion flag is true exactly when
either a *positive* content-length value was parsed from the headers
(`toRead > 0`) and the count of appended body bytes equals it, or no
positive value was stored (header absent, unterminated, zero or negative)
and at least one body byte was appended.  This differs from the claim for
a content-length of exactly 0 (and for non-positive parsed values): the
source's completion test is `toRead > 0 ? ch_count == toRead : true`, so
a stored 0 falls into the permissive first-byte branch. -/
theorem readAnswerBodyFlag (maxMessageLength : Nat) (stream : List Char) :
    (readHTTPAnswer maxMessageLength stream).1.length ≤ maxMessageLength
    ∧ (readHTTPAnswer maxMessageLength stream).2 =
        (if 0 < (readFinal maxMessageLength stream).toRead
         then decide (((readFinal maxMessageLength stream).ch_count : Int) =
            (readFinal maxMessageLength stream).toRead)
         else decide (0 < (readFinal maxMessageLength stream).ch_count)) := by
  obtain ⟨h1, h2, h3, h4⟩ := readFinal_inv maxMessageLength stream
  constructor
  · show (String.mk (readFinal maxMessageLength stream).body).length ≤ maxMessageLength
    have hlen : (String.mk (readFinal maxMessageLength stream).body).length =
        (readFinal maxMessageLength stream).body.length := rfl
    rw [hlen, ← h1]
    exact h2
  · exact h4

/-- C3 counterexample: a response whose headers carry "content-length: 0"
followed by one body byte.  The content-length extraction finds the value
0, one body byte is read (count 1 ≠ 0), yet the returned completion flag
is true — refuting "if a content-length header was found, the flag is
true exactly when the count of body bytes equals that content-length". -/
theorem completionFlagCex :
    contentLengthFromHeaders hdrCL0 = some 0
    ∧ (readHTTPAnswer 100 streamCL0).2 = true
    ∧ (readHTTPAnswer 100 streamCL0).1.length = 1 := by
  decide

/-- C6 (amended): `processResult` resets only eleven fields (text,
from_id, from_name, longitude, latitude, reply_to_message_id,
reply_to_text, query_id and the three contact fields) before the type
dispatch; the remaining fields — type, date, chat id/title, message id,
`hasDocument` and the document metadata — are written only by the branch
that needs them and otherwise retain whatever the reused slot held from
an earlier poll.  Exhibited here on the channel_post branch: the
delivered record is exactly the old slot with the reset fields cleared
and the six channel_post fields written, with `hasDocument`,
`file_caption`, `file_name`, `file_path` and `file_size` inherited
unchanged from the slot's prior contents. -/
theorem resetFieldsChannelPost (gf : String → Option (String × Int))
    (result : JSON) (slot : TelegramMessage) (w : Int)
    (h1 : result.containsKey "message" = false)
    (h2 : result.containsKey "channel_post" = true)
    (hw : w ≠ updateIdOf result) :
    processResult gf result slot w =
      (true,
       { slot with
          update_id := updateIdOf result,
          from_id := "", from_name := "", longitude := 0, latitude := 0,
          reply_to_message_id := 0, reply_to_text := "", query_id := "",
          contact_phone_number := "", contact_name := "", contact_id := "",
          type := "channel_post",
          text := ((result.get "channel_post").get "text").asString,
          date := ((result.get "channel_post").get "date").asString,
          chat_id := (((result.get "channel_post").get "chat").get "id").asString,
          chat_title := (((result.get "channel_post").get "chat").get "title").asString,
          message_id := ((result.get "channel_post").get "message_id").asInt },
       updateIdOf result) := by
  unfold processResult
  rw [if_pos hw]
  unfold processBranches
  simp [h1, h2]

/-- Witness for C6's amended theorem: a channel_post element decoded over
a slot that still carries `hasDocument = true` from an earlier poll. -/
theorem resetFieldsChannelPostWitness :
    processResult gf0 eCP slotDoc 0 =
      (true,
       { slotDoc with
          update_id := updateIdOf eCP,
          from_id := "", from_name := "", longitude := 0, latitude := 0,
          reply_to_message_id := 0, reply_to_text := "", query_id := "",
          contact_phone_number := "", contact_name := "", contact_id := "",
          type := "channel_post",
          text := ((eCP.get "channel_post").get "text").asString,
          date := ((eCP.get "channel_post").get "date").asString,
          chat_id := (((eCP.get "channel_post").get "chat").get "id").asString,
          chat_title := (((eCP.get "channel_post").get "chat").get "title").asString,
          message_id := ((eCP.get "channel_post").get "message_id").asInt },
       updateIdOf eCP) :=
  resetFieldsChannelPost gf0 eCP slotDoc 0 (by decide) (by decide) (by decide)

/-- C6 counterexample: decoding the channel_post element `eCP` into a
slot whose previous occupant had set `hasDocument` leaves the flag true,
although `hasDocument` is irrelevant to a channel_post and its defined
default is false — refuting "every other field holds its defined
empty/zero default for every prior content of the slot". -/
theorem staleFieldCex :
    (processResult gf0 eCP slotDoc 0).2.1.hasDocument = true := by
  decide

/-- C7: a result element with a `message` key whose message carries a
`text` field decodes (when its id differs from the watermark, i.e. it is
delivered at all) to a record whose text slot is exactly that field and
whose location, document flag and contact fields hold their zero/empty
defaults. -/
theorem messageTextRoundTrip (gf : String → Option (String × Int))
    (result : JSON) (slot : TelegramMessage) (w : Int) (t : String)
    (h1 : result.containsKey "message" = true)
    (h2 : (result.get "message").lookup "text" = some (JSON.str t))
    (hw : w ≠ updateIdOf result) :
    (processResult gf result slot w).2.1.text = t
    ∧ (processResult gf result slot w).2.1.latitude = 0
    ∧ (processResult gf result slot w).2.1.longitude = 0
    ∧ (processResult gf result slot w).2.1.hasDocument = false
    ∧ (processResult gf result slot w).2.1.contact_phone_number = ""
    ∧ (processResult gf result slot w).2.1.contact_name = ""
    ∧ (processResult gf result slot w).2.1.contact_id = "" := by
  have hct : (result.get "message").containsKey "text" = true := by
    show ((result.get "message").lookup "text").isSome = true
    rw [h2]
    rfl
  have hgt : (result.get "message").get "text" = JSON.str t := by
    show ((result.get "message").lookup "text").getD JSON.null = JSON.str t
    rw [h2]
    rfl
  unfold processResult
  rw [if_pos hw]
  unfold processBranches
  simp only [h1, hct, hgt, if_true]
  split <;> simp [JSON.asString]

/-- Witness for C7 at a concrete message-shaped element. -/
theorem messageTextRoundTripWitness :
    (processResult gf0 eMsg emptyMessage 0).2.1.text = "hi"
    ∧ (processResult gf0 eMsg emptyMessage 0).2.1.latitude = 0
    ∧ (processResult gf0 eMsg emptyMessage 0).2.1.longitude = 0
    ∧ (processResult gf0 eMsg emptyMessage 0).2.1.hasDocument = false
    ∧ (processResult gf0 eMsg emptyMessage 0).2.1.contact_phone_number = ""
    ∧ (processResult gf0 eMsg emptyMessage 0).2.1.contact_name = ""
    ∧ (processResult gf0 eMsg emptyMessage 0).2.1.contact_id = "" :=
  messageTextRoundTrip gf0 eMsg emptyMessage 0 "hi" (by decide) rfl (by decide)

/-- C8 (amended): for a result element whose *earliest matching* type key
is `callback_query` — i.e. it carries `callback_query` and neither
`message` nor `channel_post`, which the source checks first — the decoded
record's text comes from the query's `data` field, its chat id from the
chat id of the query's nested original message, and its reply text from
the nested message's text. -/
theorem callbackQueryFields (gf : String → Option (String × Int))
    (result : JSON) (slot : TelegramMessage) (w : Int)
    (h1 : result.containsKey "message" = false)
    (h2 : result.containsKey "channel_post" = false)
    (h3 : result.containsKey "callback_query" = true)
    (hw : w ≠ updateIdOf result) :
    (processResult gf result slot w).2.1.text =
        ((result.get "callback_query").get "data").asString
    ∧ (processResult gf result slot w).2.1.chat_id =
        ((((result.get "callback_query").get "message").get "chat").get "id").asString
    ∧ (processResult gf result slot w).2.1.reply_to_text =
        (((result.get "callback_query").get "message").get "text").asString := by
  unfold processResult
  rw [if_pos hw]
  unfold processBranches
  simp [h1, h2, h3]

/-- Witness for C8's amended theorem at a concrete callback_query-shaped
element. -/
theorem callbackQueryFieldsWitness :
    (processResult gf0 eCQ emptyMessage 0).2.1.text =
        ((eCQ.get "callback_query").get "data").asString
    ∧ (processResult gf0 eCQ emptyMessage 0).2.1.chat_id =
        ((((eCQ.get "callback_query").get "message").get "chat").get "id").asString
    ∧ (processResult gf0 eCQ emptyMessage 0).2.1.reply_to_text =
        (((eCQ.get "callback_query").get "message").get "text").asString :=
  callbackQueryFields gf0 eCQ emptyMessage 0 (by decide) (by decide) (by decide)
    (by decide)

/-- C8 counterexample: on an element carrying both a `message` key and a
`callback_query` key the dispatch takes the `message` branch first, so
the record's text is the message text, not the query's `data` field —
refuting the claim read over *every* element containing a
`callback_query` key. -/
theorem callbackDispatchCex :
    (processResult gf0 eBoth emptyMessage 0).2.1.text ≠
      ((eBoth.get "callback_query").get "data").asString := by
  decide
